import Mathlib

/-!
Verification development for the Oasis Fortune API (`oasis_api_cloud/main.py`).

The Python source is shallowly embedded: pure helpers become Lean functions on
`List Char` / `List Nat` / `ℚ`, Python exceptions become `Except Unit`, and the
two library calls that live outside the repository (PIL's `Image.open` pixel
decoding and `datetime.fromisoformat`) are passed in as explicit parameters
(`openImage : List Nat → Except Unit _`, `parsedYear : Option ℤ`).  Python
floats are modelled by exact rationals; `round(x, n)` is modelled as
round-half-to-even at `n` decimal digits.
-/

namespace OasisApi

instance {ε α : Type} [DecidableEq ε] [DecidableEq α] : DecidableEq (Except ε α) := fun x y =>
  match x, y with
  | .ok a, .ok b =>
    if h : a = b then isTrue (by rw [h]) else isFalse (fun hc => h (Except.ok.inj hc))
  | .ok _, .error _ => isFalse (fun hc => Except.noConfusion hc)
  | .error _, .ok _ => isFalse (fun hc => Except.noConfusion hc)
  | .error a, .error b =>
    if h : a = b then isTrue (by rw [h]) else isFalse (fun hc => h (Except.error.inj hc))

/-! ## Base64 decoding (`base64.b64decode`, i.e. CPython `binascii.a2b_base64`
in non-strict mode): characters outside the base64 alphabet are skipped,
`=` is padding, and leftover data characters raise `binascii.Error`. -/

/-- Value of a base64 alphabet character, `none` for a non-alphabet character
(which non-strict `a2b_base64` silently skips). -/
def b64CharVal (c : Char) : Option Nat :=
  if 'A' ≤ c ∧ c ≤ 'Z' then some (c.toNat - 65)
  else if 'a' ≤ c ∧ c ≤ 'z' then some (c.toNat - 97 + 26)
  else if '0' ≤ c ∧ c ≤ '9' then some (c.toNat - 48 + 52)
  else if c = '+' then some 62
  else if c = '/' then some 63
  else none

/-- State machine of CPython `a2b_base64` (non-strict): position inside the
current quad, number of pending pad characters, pending bits, accumulated
output bytes (reversed). `Except.error ()` models a raised `binascii.Error`. -/
def a2bAux : List Char → Nat → Nat → Nat → List Nat → Except Unit (List Nat)
  | [], quadPos, _, _, acc =>
    if quadPos = 0 then .ok acc.reverse else .error ()
  | c :: rest, quadPos, pads, leftchar, acc =>
    if c = '=' then
      if 2 ≤ quadPos ∧ 4 ≤ quadPos + (pads + 1) then .ok acc.reverse
      else a2bAux rest quadPos (pads + 1) leftchar acc
    else
      match b64CharVal c with
      | none => a2bAux rest quadPos pads leftchar acc
      | some v =>
        match quadPos with
        | 0 => a2bAux rest 1 pads v acc
        | 1 => a2bAux rest 2 pads (v % 16) ((leftchar * 4 + v / 16) :: acc)
        | 2 => a2bAux rest 3 pads (v % 4) ((leftchar * 16 + v / 4) :: acc)
        | _ => a2bAux rest 0 pads 0 ((leftchar * 64 + v) :: acc)

/-- `base64.b64decode` on a string of characters, returning the byte list or a
raised error. -/
def b64decode (s : List Char) : Except Unit (List Nat) :=
  a2bAux s 0 0 0 []

/-- `data.startswith("data:")` from `_decode_b64` (main.py line 85). -/
def startsWithDataColon : List Char → Bool
  | 'd' :: 'a' :: 't' :: 'a' :: ':' :: _ => true
  | _ => false

/-- The characters after the first comma, `none` when there is no comma:
the second component of Python's `data.split(",", 1)` (main.py line 87),
whose 1-element result makes the tuple unpacking raise `ValueError`. -/
def afterComma : List Char → Option (List Char)
  | [] => none
  | c :: rest => if c = ',' then some rest else afterComma rest

/-- `_decode_b64` (main.py lines 81–92): empty input short-circuits to `b""`;
a `data:` prefixed input is split once at the first comma (the caught
`ValueError` on a comma-free input falls back to the whole string); everything
else is base64-decoded whole. -/
def decode_b64 (data : List Char) : Except Unit (List Nat) :=
  if data = [] then .ok []
  else
    let b64 :=
      if startsWithDataColon data then
        match afterComma data with
        | some rest => rest
        | none => data
      else data
    b64decode b64

/-- Modelled from the spec: the §4.1 decoder contract — "if the input contains
a comma, split once and decode the substring after the first comma as base64;
otherwise decode the whole string as base64". This follows the spec's words,
not the source, and is only used to compare against `decode_b64`. -/
def specContractDecode (data : List Char) : Except Unit (List Nat) :=
  match afterComma data with
  | some rest => b64decode rest
  | none => b64decode data

/-- The payload `_decode_b64` actually hands to `base64.b64decode`: the part
after the first comma only when the string starts with `data:`. -/
def effectivePayload (data : List Char) : List Char :=
  if startsWithDataColon data then
    match afterComma data with
    | some rest => rest
    | none => data
  else data

/-! ## Image statistics (`analyze_image_basic`, main.py lines 94–138).
PIL pixel decoding is outside the repository, so the successfully-opened image
is abstracted by `openImage : List Nat → Except Unit (Nat × Nat × ℚ × ℚ)`,
yielding width, height, mean grayscale value and mean edge-filter value
(`ImageStat.Stat(...).mean[0]`, a float in `[0, 255]`). -/

/-- `max(0.0, min(1.0, x))` — the clamp used throughout `analyze_image_basic`. -/
def clamp01 (x : ℚ) : ℚ := max 0 (min 1 x)

/-- Round to the nearest integer, ties to even — the rounding of Python's
built-in `round`. -/
def rndHalfEven (x : ℚ) : ℤ :=
  if x - ⌊x⌋ < 1/2 then ⌊x⌋
  else if 1/2 < x - ⌊x⌋ then ⌊x⌋ + 1
  else if ⌊x⌋ % 2 = 0 then ⌊x⌋ else ⌊x⌋ + 1

/-- Python's `round(x, k)` on the exact-rational model: half-to-even at `k`
decimal digits. -/
def pyRound (k : Nat) (x : ℚ) : ℚ := (rndHalfEven (x * 10 ^ k) : ℚ) / 10 ^ k

/-- The record returned by `analyze_image_basic` (main.py lines 105 and
132–138). -/
structure Stats where
  img_w : ℚ
  img_h : ℚ
  brightness : ℚ
  sharpness : ℚ
  quality : ℚ
deriving DecidableEq

/-- The sentinel statistics returned for an empty decode (main.py line 105). -/
def sentinelStats : Stats :=
  { img_w := 0, img_h := 0, brightness := 1/2, sharpness := 1/2, quality := 1/2 }

/-- Exposure score (main.py lines 125–126): `1.0 - abs(brightness - 0.5) * 2.0`
followed by the clamp to `[0, 1]`. -/
def exposure_score (brightness : ℚ) : ℚ :=
  clamp01 (1 - |brightness - 0.5| * 2)

/-- Combined quality (main.py lines 129–130):
`0.5 * sharp + 0.3 * res_score + 0.2 * exposure_score`, clamped to `[0, 1]`. -/
def quality_raw (sharp res_score exposure : ℚ) : ℚ :=
  clamp01 (0.5 * sharp + 0.3 * res_score + 0.2 * exposure)

/-- Statistics of a successfully opened image of size `w × h` with mean
grayscale value `grayMean` and mean edge value `edgeMean`
(main.py lines 107–138). -/
def statsOfImage (w h : Nat) (grayMean edgeMean : ℚ) : Stats :=
  let brightness := clamp01 (grayMean / 255)
  let sharp := clamp01 (edgeMean / 255 * 1.5)
  let res_score := clamp01 ((w * h : ℚ) / (1280 * 720))
  let expo := exposure_score brightness
  let quality := quality_raw sharp res_score expo
  { img_w := (w : ℚ), img_h := (h : ℚ),
    brightness := pyRound 3 brightness,
    sharpness := pyRound 3 sharp,
    quality := pyRound 3 quality }

/-- `analyze_image_basic` (main.py lines 94–138): decode the base64 payload
(a decode error propagates as a raised exception), return the sentinel for an
empty payload, otherwise open the image and compute the statistics. -/
def analyze_image_basic (openImage : List Nat → Except Unit (Nat × Nat × ℚ × ℚ))
    (image_b64 : List Char) : Except Unit Stats :=
  match decode_b64 image_b64 with
  | .error e => .error e
  | .ok [] => .ok sentinelStats
  | .ok raw =>
    match openImage raw with
    | .error e => .error e
    | .ok (w, h, grayMean, edgeMean) => .ok (statsOfImage w h grayMean edgeMean)

/-! ## `/v1/saju/compute` (main.py lines 145–171).
`datetime.fromisoformat` is standard-library code outside the repository, so
the handler is parametrised by the outcome of the parse: `some y` when the
birth timestamp parses to a datetime of year `y`, `none` when the parse raises
(the `except` on lines 149–150). -/

/-- One entry of the luck timeline (`Luck` schema, main.py lines 36–40). -/
structure Luck where
  start_year : ℤ
  end_year : ℤ
  tag : String
  notes : String
deriving DecidableEq

/-- The part of the `SajuResult` response built by `compute_saju`
(main.py lines 42–48 and 164–171). -/
structure SajuResultM where
  pillars : List (String × String × String × List String)
  ten_gods : List (String × String)
  strength_score : ℚ
  elements : List (String × ℤ)
  yongshin_candidates : List String
  luck_timeline : List Luck
deriving DecidableEq

/-- `compute_saju` (main.py lines 146–171): the reference year is the parsed
birth year, or 1990 when parsing raised; everything else is fixed literal
data except the luck timeline, which starts the year after the reference
year. -/
def compute_saju (parsedYear : Option ℤ) : SajuResultM :=
  let year : ℤ := match parsedYear with | some y => y | none => 1990
  let elements : List (String × ℤ) :=
    [("wood", 3), ("fire", 2), ("earth", 2), ("metal", 1), ("water", 2)]
  let strength := pyRound 2 ((((elements.lookup "wood").getD 0 +
    (elements.lookup "water").getD 0 : ℤ) : ℚ) / 10)
  let yongshin := if strength > 1/2 then ["火", "土"] else ["木", "水"]
  { pillars :=
      [("year", "甲", "子", ["癸"]),
       ("month", "丙", "寅", ["甲", "丙", "戊"]),
       ("day", "辛", "巳", ["丙", "庚", "戊"]),
       ("hour", "壬", "午", ["丁", "己"])],
    ten_gods := [("to_day", "偏財"), ("to_month", "正官")],
    strength_score := strength,
    elements := elements,
    yongshin_candidates := yongshin,
    luck_timeline :=
      [{ start_year := year + 1, end_year := year + 10, tag := "opportunity", notes := "전환기" },
       { start_year := year + 11, end_year := year + 20, tag := "neutral", notes := "" }] }

/-! ## `/v1/face/extract` (main.py lines 173–190). -/

/-- The trait mapping of `extract_face` (main.py lines 178–184): affine remaps
of the statistics, each rounded to 2 decimals, with no clamping. -/
def traitsOf (brightness sharpness quality : ℚ) : List (String × ℚ) :=
  [("clarity", pyRound 2 (0.5 + (sharpness - 0.5) * 0.8)),
   ("stability", pyRound 2 (0.5 + (0.5 - |brightness - 0.5|) * 0.6)),
   ("sociality", pyRound 2 (0.5 + (brightness - 0.5) * 0.4)),
   ("determination", pyRound 2 (0.5 + (sharpness - 0.5) * 0.5)),
   ("resilience", pyRound 2 (0.5 + (quality - 0.5) * 0.6))]

/-- The `FaceResult` fields filled by `extract_face` (main.py lines 185–190). -/
structure FaceResultM where
  quality : ℚ
  features : List (String × ℚ)
  traits : List (String × ℚ)
deriving DecidableEq

/-- `extract_face` (main.py lines 174–190): run the basic image analysis
(exceptions propagate) and derive the dummy trait scores. -/
def extract_face (openImage : List Nat → Except Unit (Nat × Nat × ℚ × ℚ))
    (image_b64 : List Char) : Except Unit FaceResultM :=
  match analyze_image_basic openImage image_b64 with
  | .error e => .error e
  | .ok m =>
    .ok { quality := m.quality,
          features := [("img_w", m.img_w), ("img_h", m.img_h),
                       ("brightness", m.brightness), ("sharpness", m.sharpness)],
          traits := traitsOf m.brightness m.sharpness m.quality }

/-! ## `/v1/report/compose` (main.py lines 192–217). -/

/-- Opportunity-branch summary (main.py line 199). -/
def opportunitySummary : String :=
  "집중력이 잘 받쳐주는 시기입니다. 준비된 기회를 빠르게 캐치하세요."

/-- Opportunity-branch extra actions (main.py line 200). -/
def opportunityActions : List String :=
  ["핵심 의사결정 회의에 직접 참석", "콘텐츠·브랜딩에 선명한 메시지 쓰기"]

/-- Caution-branch summary (main.py line 202). -/
def cautionSummary : String :=
  "재정비가 필요한 구간입니다. 속도를 잠시 낮추고 기반을 다지세요."

/-- Caution-branch extra actions (main.py line 203). -/
def cautionActions : List String :=
  ["리스크 점검 주간 운영", "작은 실험으로 신호 검증"]

/-- Neutral-branch summary (main.py line 205). -/
def neutralSummary : String :=
  "타이밍이 중요한 전환기입니다. 무리한 확장은 피하고 준비된 기회를 노리세요."

/-- Neutral-branch extra action (main.py line 206). -/
def neutralActions : List String :=
  ["핵심 파트너와 월 1회 리뷰"]

/-- The two universal actions appended on main.py line 215. -/
def universalActions : List String :=
  ["지출 상위 2개 항목 15% 절감", "주 2회 30분 유산소"]

/-- The fixed `sections` mapping (main.py lines 208–214). -/
def fixedSections : List (String × String) :=
  [("성격", "주도성과 신중함이 공존하는 편. 팀 내에서 조율자 역할이 어울립니다."),
   ("대인관계", "초반 경계심이 있으나 신뢰 형성 후 강한 결속을 보입니다."),
   ("사업", "상반기에는 파트너십 위주, 하반기에는 자체 브랜드 강화가 유리합니다."),
   ("재물", "지출 카테고리 1~2개를 축소해 현금을 비축하세요."),
   ("건강", "수면 리듬 관리와 간단한 유산소 운동을 권장합니다.")]

/-- The branch cascade of `compose_report` (main.py lines 198–206), first
match wins: summary and branch-specific actions. -/
def selectTemplate (clarity quality : ℚ) : String × List String :=
  if clarity ≥ 0.7 ∧ quality ≥ 0.65 then (opportunitySummary, opportunityActions)
  else if quality < 0.45 then (cautionSummary, cautionActions)
  else (neutralSummary, neutralActions)

/-- `float(input.face.quality or 0.5)` (main.py line 196): Python's `or`
replaces a falsy (zero) float by `0.5`. -/
def effectiveQuality (q : ℚ) : ℚ := if q = 0 then 0.5 else q

/-- Helper for `dictFromKeys`: keep each string not already seen, threading
the set of seen strings. -/
def dictFromKeysAux (seen : List String) : List String → List String
  | [] => []
  | a :: l =>
    if a ∈ seen then dictFromKeysAux seen l
    else a :: dictFromKeysAux (a :: seen) l

/-- `dict.fromkeys` as used on main.py line 215: keep the first occurrence of
each string, preserving first-seen order. -/
def dictFromKeys (l : List String) : List String := dictFromKeysAux [] l

/-- The `Report` response schema (main.py lines 57–61). -/
structure Report where
  summary : String
  sections : List (String × String)
  actions : List String
  disclaimer : String
deriving DecidableEq

/-- `compose_report` (main.py lines 193–217): `clarityTrait` is
`input.face.traits.get("clarity", 0.5)` (`none` when the key is absent),
`faceQuality` is `input.face.quality`. -/
def compose_report (clarityTrait : Option ℚ) (faceQuality : ℚ) : Report :=
  let clarity := clarityTrait.getD 0.5
  let quality := effectiveQuality faceQuality
  let t := selectTemplate clarity quality
  { summary := t.1,
    sections := fixedSections,
    actions := dictFromKeys (t.2 ++ universalActions),
    disclaimer := "본 결과는 참고용이며, 의료·법률·재무 판단의 근거가 아닙니다." }

/-! ## Helper lemmas. -/

theorem rndHalfEven_ge_floor (x : ℚ) : ⌊x⌋ ≤ rndHalfEven x := by
  unfold rndHalfEven
  split_ifs <;> omega

theorem rndHalfEven_le_floor_add_one (x : ℚ) : rndHalfEven x ≤ ⌊x⌋ + 1 := by
  unfold rndHalfEven
  split_ifs <;> omega

theorem rndHalfEven_mono {x y : ℚ} (h : x ≤ y) : rndHalfEven x ≤ rndHalfEven y := by
  rcases lt_or_eq_of_le (Int.floor_le_floor h) with hf | hf
  · calc rndHalfEven x ≤ ⌊x⌋ + 1 := rndHalfEven_le_floor_add_one x
      _ ≤ ⌊y⌋ := by omega
      _ ≤ rndHalfEven y := rndHalfEven_ge_floor y
  · have hr : x - (⌊x⌋ : ℚ) ≤ y - (⌊y⌋ : ℚ) := by
      rw [hf]
      exact sub_le_sub_right h _
    unfold rndHalfEven
    rw [hf] at *
    split_ifs <;> first | omega | linarith

theorem rndHalfEven_intCast (n : ℤ) : rndHalfEven (n : ℚ) = n := by
  unfold rndHalfEven
  rw [Int.floor_intCast]
  norm_num

theorem pyRound_mono (k : Nat) {x y : ℚ} (h : x ≤ y) : pyRound k x ≤ pyRound k y := by
  unfold pyRound
  have hpow : (0 : ℚ) < 10 ^ k := by positivity
  have := rndHalfEven_mono (mul_le_mul_of_nonneg_right h (le_of_lt hpow))
  have hcast : ((rndHalfEven (x * 10 ^ k) : ℚ)) ≤ ((rndHalfEven (y * 10 ^ k) : ℚ)) := by
    exact_mod_cast this
  exact div_le_div_of_nonneg_right hcast hpow.le

theorem pyRound_zero (k : Nat) : pyRound k 0 = 0 := by
  unfold pyRound
  rw [zero_mul]
  have : ((0 : ℤ) : ℚ) = 0 := by norm_num
  rw [← this, rndHalfEven_intCast]
  norm_num

theorem pyRound_one (k : Nat) : pyRound k 1 = 1 := by
  unfold pyRound
  rw [one_mul]
  have h10 : ((10 : ℚ) ^ k) = (((10 : ℤ) ^ k : ℤ) : ℚ) := by push_cast; ring
  rw [h10, rndHalfEven_intCast]
  have : ((10 : ℤ) ^ k : ℚ) ≠ 0 := by positivity
  field_simp

theorem pyRound_nonneg (k : Nat) {x : ℚ} (h : 0 ≤ x) : 0 ≤ pyRound k x := by
  have := pyRound_mono k h
  rwa [pyRound_zero] at this

theorem pyRound_le_one (k : Nat) {x : ℚ} (h : x ≤ 1) : pyRound k x ≤ 1 := by
  have := pyRound_mono k h
  rwa [pyRound_one] at this

theorem clamp01_nonneg (x : ℚ) : 0 ≤ clamp01 x := le_max_left 0 _

theorem clamp01_le_one (x : ℚ) : clamp01 x ≤ 1 := by
  unfold clamp01
  rw [max_le_iff]
  exact ⟨by norm_num, min_le_left 1 x⟩

theorem clamp01_mono {x y : ℚ} (h : x ≤ y) : clamp01 x ≤ clamp01 y :=
  max_le_max (le_refl 0) (min_le_min (le_refl 1) h)

theorem clamp01_of_bounds {x : ℚ} (h0 : 0 ≤ x) (h1 : x ≤ 1) : clamp01 x = x := by
  unfold clamp01
  rw [min_eq_right h1, max_eq_right h0]

theorem mem_dictFromKeysAux {x : String} :
    ∀ (l seen : List String), x ∈ dictFromKeysAux seen l → x ∈ l ∧ x ∉ seen := by
  intro l
  induction l with
  | nil => intro seen h; simp [dictFromKeysAux] at h
  | cons a l ih =>
    intro seen h
    rw [dictFromKeysAux] at h
    by_cases ha : a ∈ seen
    · rw [if_pos ha] at h
      obtain ⟨h1, h2⟩ := ih seen h
      exact ⟨List.mem_cons_of_mem a h1, h2⟩
    · rw [if_neg ha] at h
      rcases List.mem_cons.mp h with rfl | h
      · exact ⟨List.mem_cons_self _ _, ha⟩
      · obtain ⟨h1, h2⟩ := ih (a :: seen) h
        refine ⟨List.mem_cons_of_mem a h1, fun hx => h2 (List.mem_cons_of_mem a hx)⟩

theorem dictFromKeysAux_nodup : ∀ (l seen : List String), (dictFromKeysAux seen l).Nodup := by
  intro l
  induction l with
  | nil => intro seen; simp [dictFromKeysAux]
  | cons a l ih =>
    intro seen
    rw [dictFromKeysAux]
    by_cases ha : a ∈ seen
    · rw [if_pos ha]; exact ih seen
    · rw [if_neg ha]
      refine List.nodup_cons.mpr ⟨fun hmem => ?_, ih (a :: seen)⟩
      exact (mem_dictFromKeysAux l (a :: seen) hmem).2 (List.mem_cons_self _ _)

theorem dictFromKeys_nodup (l : List String) : (dictFromKeys l).Nodup :=
  dictFromKeysAux_nodup l []

/-- Every successful result of `analyze_image_basic` is either the sentinel or
the statistics of some opened image. -/
theorem analyze_ok_cases (openImage : List Nat → Except Unit (Nat × Nat × ℚ × ℚ))
    (img : List Char) (st : Stats) (h : analyze_image_basic openImage img = .ok st) :
    st = sentinelStats ∨ ∃ w hh g em, st = statsOfImage w hh g em := by
  unfold analyze_image_basic at h
  split at h
  · exact Except.noConfusion h
  · exact Or.inl (Except.ok.inj h).symm
  · split at h
    · exact Except.noConfusion h
    · exact Or.inr ⟨_, _, _, _, (Except.ok.inj h).symm⟩

/-- The brightness, sharpness and quality fields of every statistics record
that `analyze_image_basic` can return lie in `[0, 1]`. -/
theorem analyze_ok_bounds {openImage : List Nat → Except Unit (Nat × Nat × ℚ × ℚ)}
    {img : List Char} {st : Stats} (h : analyze_image_basic openImage img = .ok st) :
    (0 ≤ st.brightness ∧ st.brightness ≤ 1) ∧ (0 ≤ st.sharpness ∧ st.sharpness ≤ 1) ∧
      (0 ≤ st.quality ∧ st.quality ≤ 1) := by
  rcases analyze_ok_cases openImage img st h with rfl | ⟨w, hh, g, em, rfl⟩
  · unfold sentinelStats
    norm_num
  · refine ⟨⟨?_, ?_⟩, ⟨?_, ?_⟩, ⟨?_, ?_⟩⟩ <;>
      first
        | exact pyRound_nonneg 3 (clamp01_nonneg _)
        | exact pyRound_le_one 3 (clamp01_le_one _)

/-- Every trait score computed from statistics in `[0, 1]` lies in `[0, 1]`:
the affine remaps land in `[0.1, 0.9]` before rounding. -/
theorem traitsOf_bounds {b s q : ℚ} (hb0 : 0 ≤ b) (hb1 : b ≤ 1)
    (hs0 : 0 ≤ s) (hs1 : s ≤ 1) (hq0 : 0 ≤ q) (hq1 : q ≤ 1) :
    ∀ p ∈ traitsOf b s q, 0 ≤ p.2 ∧ p.2 ≤ 1 := by
  have habs0 : (0 : ℚ) ≤ |b - 0.5| := abs_nonneg _
  have habs1 : |b - 0.5| ≤ 0.5 := abs_le.mpr ⟨by linarith, by linarith⟩
  intro p hp
  simp only [traitsOf, List.mem_cons, List.not_mem_nil, or_false] at hp
  rcases hp with rfl | rfl | rfl | rfl | rfl <;>
    exact ⟨pyRound_nonneg 2 (by linarith), pyRound_le_one 2 (by linarith)⟩

/-! ## Claim theorems. -/

/-- Claim C1, amended: an `image_base64` input that is empty or blank (its
base64 payload decodes to zero bytes) makes `analyze_image_basic` return —
without raising — exactly the sentinel statistics record
`{width: 0, height: 0, brightness: 0.5, sharpness: 0.5, quality: 0.5}`; the
claim's further assertion that *unparseable* input also gets the sentinel is
refuted separately, since a base64 decode error propagates as an exception. -/
theorem analyze_empty_gives_sentinel :
    (∀ openImage : List Nat → Except Unit (Nat × Nat × ℚ × ℚ),
        analyze_image_basic openImage [] = .ok sentinelStats) ∧
    (∀ (openImage : List Nat → Except Unit (Nat × Nat × ℚ × ℚ)) (img : List Char),
        decode_b64 img = .ok [] → analyze_image_basic openImage img = .ok sentinelStats) ∧
    sentinelStats.img_w = 0 ∧ sentinelStats.img_h = 0 ∧ sentinelStats.brightness = 1/2 ∧
      sentinelStats.sharpness = 1/2 ∧ sentinelStats.quality = 1/2 := by
  refine ⟨fun openImage => rfl, fun openImage img h => ?_, rfl, rfl, rfl, rfl, rfl⟩
  unfold analyze_image_basic
  rw [h]

/-- Witness for C1: the blank input `" "` decodes to zero bytes and receives
the sentinel, whatever the image decoder would have done. -/
theorem analyze_empty_gives_sentinel_witness :
    analyze_image_basic (fun _ => .error ()) " ".toList = .ok sentinelStats :=
  analyze_empty_gives_sentinel.2.1 (fun _ => .error ()) " ".toList (by decide)

/-- Counterexample to C1 as stated: the unparseable base64 input `"abc"`
(three data characters cannot form a base64 quantum) makes
`analyze_image_basic` raise `binascii.Error` — modelled as `Except.error` —
instead of returning the sentinel, even though the image decoder itself would
have succeeded. -/
theorem analyze_unparseable_raises :
    analyze_image_basic (fun _ => .ok (1, 1, 0, 0)) "abc".toList = .error () ∧
    analyze_image_basic (fun _ => .ok (1, 1, 0, 0)) "abc".toList ≠ .ok sentinelStats :=
  ⟨rfl, by decide⟩

/-- Claim C2, amended: `_decode_b64` splits at the first comma only when the
input starts with `data:`; every other input — even one containing a comma —
is base64-decoded whole. -/
theorem decode_b64_splits_only_data_urls :
    ∀ data : List Char, decode_b64 data = b64decode (effectivePayload data) := by
  intro data
  by_cases h : data = []
  · subst h; rfl
  · unfold decode_b64 effectivePayload
    rw [if_neg h]

/-- Counterexample to C2 as stated: the comma-containing input `"QUJD,REVG"`
does not start with `data:`, so the code decodes the whole string (the comma
is skipped by non-strict base64 decoding) to `b"ABCDEF"`, while the claimed
contract would decode only `"REVG"` to `b"DEF"`. -/
theorem decode_b64_comma_counterexample :
    decode_b64 "QUJD,REVG".toList ≠ specContractDecode "QUJD,REVG".toList ∧
    decode_b64 "QUJD,REVG".toList = .ok [65, 66, 67, 68, 69, 70] ∧
    specContractDecode "QUJD,REVG".toList = .ok [68, 69, 70] :=
  ⟨by decide, by decide, by decide⟩

/-- Claim C3: the combined quality score is
`clamp(0.5·sharpness + 0.3·resolution_score + 0.2·exposure_score, 0, 1)` —
both as the raw formula and as the quality field of the statistics record —
and at sharpness 1, resolution score 1 and brightness 0.5 (exposure score 1)
it is exactly 1, also after the final rounding to 3 decimals. -/
theorem quality_formula_and_perfect_input :
    (∀ s r e : ℚ, quality_raw s r e = max 0 (min 1 (0.5 * s + 0.3 * r + 0.2 * e))) ∧
    (∀ (w h : Nat) (g em : ℚ),
        (statsOfImage w h g em).quality =
          pyRound 3 (quality_raw (clamp01 (em / 255 * 1.5))
            (clamp01 ((w * h : ℚ) / (1280 * 720))) (exposure_score (clamp01 (g / 255))))) ∧
    exposure_score 0.5 = 1 ∧
    quality_raw 1 1 (exposure_score 0.5) = 1 ∧
    pyRound 3 (quality_raw 1 1 (exposure_score 0.5)) = 1 := by
  have hq : quality_raw 1 1 (exposure_score 0.5) = 1 := by
    norm_num [quality_raw, exposure_score, clamp01]
  refine ⟨fun s r e => rfl, fun w h g em => rfl, ?_, hq, ?_⟩
  · norm_num [exposure_score, clamp01]
  · rw [hq, pyRound_one]

/-- Claim C4: for brightness `b ∈ [0, 1]` the exposure score is
`clamp(1 − 2·|b − 0.5|, 0, 1)`, which on that interval simplifies to
`1 − 2·|b − 0.5|`; it is 1 at `b = 0.5`, 0 at `b ∈ {0, 1}`, and strictly
decreasing in `|b − 0.5|`. -/
theorem exposure_score_properties :
    (∀ b : ℚ, exposure_score b = max 0 (min 1 (1 - 2 * |b - 0.5|))) ∧
    exposure_score 0.5 = 1 ∧ exposure_score 0 = 0 ∧ exposure_score 1 = 0 ∧
    (∀ b : ℚ, 0 ≤ b → b ≤ 1 → exposure_score b = 1 - 2 * |b - 0.5|) ∧
    (∀ b₁ b₂ : ℚ, 0 ≤ b₁ → b₁ ≤ 1 → 0 ≤ b₂ → b₂ ≤ 1 →
        |b₁ - 0.5| < |b₂ - 0.5| → exposure_score b₂ < exposure_score b₁) := by
  have hid : ∀ b : ℚ, 0 ≤ b → b ≤ 1 → exposure_score b = 1 - 2 * |b - 0.5| := by
    intro b hb0 hb1
    have h1 : |b - 0.5| ≤ 0.5 := abs_le.mpr ⟨by linarith, by linarith⟩
    have h2 : (0 : ℚ) ≤ |b - 0.5| := abs_nonneg _
    unfold exposure_score
    rw [clamp01_of_bounds (by linarith) (by linarith)]
    ring
  have habs0 : |(0 : ℚ) - 0.5| = 0.5 := by
    rw [abs_sub_comm, abs_of_nonneg] <;> norm_num
  have habs1 : |(1 : ℚ) - 0.5| = 0.5 := by
    rw [abs_of_nonneg] <;> norm_num
  refine ⟨fun b => ?_, ?_, ?_, ?_, hid, fun b₁ b₂ h₁0 h₁1 h₂0 h₂1 hlt => ?_⟩
  · unfold exposure_score clamp01
    ring_nf
  · rw [hid 0.5 (by norm_num) (by norm_num), sub_self, abs_zero]
    norm_num
  · rw [hid 0 (by norm_num) (by norm_num), habs0]
    norm_num
  · rw [hid 1 (by norm_num) (by norm_num), habs1]
    norm_num
  · rw [hid b₁ h₁0 h₁1, hid b₂ h₂0 h₂1]
    linarith

/-- Witness for C4: brightness 1 is worse-exposed than mid-gray 0.5. -/
theorem exposure_score_properties_witness : exposure_score 1 < exposure_score 0.5 :=
  exposure_score_properties.2.2.2.2.2 0.5 1 (by norm_num) (by norm_num) (by norm_num)
    (by norm_num)
    (by rw [sub_self, abs_zero]; exact abs_pos.mpr (by norm_num))

/-- Claim C5: the quality score is monotonically non-decreasing in sharpness
and in resolution score, with the other arguments fixed, before and after
the final rounding to 3 decimal places. -/
theorem quality_monotone :
    (∀ s₁ s₂ r e : ℚ, s₁ ≤ s₂ → quality_raw s₁ r e ≤ quality_raw s₂ r e ∧
        pyRound 3 (quality_raw s₁ r e) ≤ pyRound 3 (quality_raw s₂ r e)) ∧
    (∀ s r₁ r₂ e : ℚ, r₁ ≤ r₂ → quality_raw s r₁ e ≤ quality_raw s r₂ e ∧
        pyRound 3 (quality_raw s r₁ e) ≤ pyRound 3 (quality_raw s r₂ e)) := by
  constructor
  · intro s₁ s₂ r e h
    have hq : quality_raw s₁ r e ≤ quality_raw s₂ r e := clamp01_mono (by linarith)
    exact ⟨hq, pyRound_mono 3 hq⟩
  · intro s r₁ r₂ e h
    have hq : quality_raw s r₁ e ≤ quality_raw s r₂ e := clamp01_mono (by linarith)
    exact ⟨hq, pyRound_mono 3 hq⟩

/-- Witness for C5: raising sharpness from 0 to 1 does not lower the rounded
quality. -/
theorem quality_monotone_witness :
    quality_raw 0 0 0 ≤ quality_raw 1 0 0 ∧
    pyRound 3 (quality_raw 0 0 0) ≤ pyRound 3 (quality_raw 1 0 0) :=
  quality_monotone.1 0 1 0 0 (by norm_num)

/-- Claim C6: the report composer tries its branches in order with first match
winning — `clarity ≥ 0.7 ∧ quality ≥ 0.65` selects the opportunity summary
with its 2 actions, otherwise `quality < 0.45` selects the caution summary
with its 2 actions, otherwise the neutral summary with its 1 action — and the
three quoted input pairs land in the three branches. -/
theorem compose_branch_order :
    (∀ (copt : Option ℚ) (q : ℚ), (compose_report copt q).summary =
        (selectTemplate (copt.getD 0.5) (effectiveQuality q)).1) ∧
    (∀ c q : ℚ, 0.7 ≤ c → 0.65 ≤ q →
        selectTemplate c q = (opportunitySummary, opportunityActions)) ∧
    (∀ c q : ℚ, ¬(0.7 ≤ c ∧ 0.65 ≤ q) → q < 0.45 →
        selectTemplate c q = (cautionSummary, cautionActions)) ∧
    (∀ c q : ℚ, ¬(0.7 ≤ c ∧ 0.65 ≤ q) → ¬(q < 0.45) →
        selectTemplate c q = (neutralSummary, neutralActions)) ∧
    opportunityActions.length = 2 ∧ cautionActions.length = 2 ∧ neutralActions.length = 1 ∧
    selectTemplate 0.8 0.7 = (opportunitySummary, opportunityActions) ∧
    selectTemplate 0.5 0.3 = (cautionSummary, cautionActions) ∧
    selectTemplate 0.5 0.5 = (neutralSummary, neutralActions) := by
  refine ⟨fun copt q => rfl, ?_, ?_, ?_, rfl, rfl, rfl, ?_, ?_, ?_⟩
  · intro c q h1 h2
    unfold selectTemplate
    rw [if_pos ⟨h1, h2⟩]
  · intro c q h1 h2
    unfold selectTemplate
    rw [if_neg h1, if_pos h2]
  · intro c q h1 h2
    unfold selectTemplate
    rw [if_neg h1, if_neg h2]
  · norm_num [selectTemplate]
  · norm_num [selectTemplate]
  · norm_num [selectTemplate]

/-- Witness for C6: clarity 0.9, quality 0.9 takes the opportunity branch. -/
theorem compose_branch_order_witness :
    selectTemplate 0.9 0.9 = (opportunitySummary, opportunityActions) :=
  compose_branch_order.2.1 0.9 0.9 (by norm_num) (by norm_num)

/-- Claim C7: for every compose input, the returned action list is the
branch-specific actions followed by the 2 universal actions, de-duplicated
with first occurrences kept, and therefore never contains duplicates. -/
theorem compose_actions_dedup :
    universalActions.length = 2 ∧
    ∀ (copt : Option ℚ) (q : ℚ),
      (compose_report copt q).actions =
        dictFromKeys ((selectTemplate (copt.getD 0.5) (effectiveQuality q)).2 ++
          universalActions) ∧
      (compose_report copt q).actions.Nodup :=
  ⟨rfl, fun _ _ => ⟨rfl, dictFromKeys_nodup _⟩⟩

/-- Claim C9: when the birth timestamp fails to parse, `compute_saju` raises
nothing (the handler's `except` swallows the failure and the function is
total), silently uses 1990 as the reference year, and the luck timeline
therefore starts at 1991; a parsed year `y` starts it at `y + 1`. -/
theorem saju_default_year :
    (compute_saju none).luck_timeline.head?.map Luck.start_year = some 1991 ∧
    (compute_saju none).luck_timeline =
      [{ start_year := 1991, end_year := 2000, tag := "opportunity", notes := "전환기" },
       { start_year := 2001, end_year := 2010, tag := "neutral", notes := "" }] ∧
    (∀ y : ℤ, (compute_saju (some y)).luck_timeline.head?.map Luck.start_year = some (y + 1)) :=
  ⟨rfl, rfl, fun _ => rfl⟩

/-- Claim C10: a face quality of exactly 0.0 is coalesced to 0.5 by the falsy
`or` on main.py line 196, so with clarity below 0.7 the composer returns the
neutral summary with the single default action (plus the universal actions),
not the caution branch that `quality < 0.45` would otherwise select. -/
theorem compose_zero_quality_neutral :
    effectiveQuality 0 = 0.5 ∧
    ∀ copt : Option ℚ, copt.getD 0.5 < 0.7 →
      (compose_report copt 0).summary = neutralSummary ∧
      (compose_report copt 0).actions = neutralActions ++ universalActions ∧
      (compose_report copt 0).summary ≠ cautionSummary := by
  have he : effectiveQuality 0 = 0.5 := by norm_num [effectiveQuality]
  refine ⟨he, fun copt hc => ?_⟩
  have hsel : selectTemplate (copt.getD 0.5) (effectiveQuality 0) =
      (neutralSummary, neutralActions) := by
    rw [he]
    unfold selectTemplate
    rw [if_neg (fun h => by norm_num at h : ¬((0.7 : ℚ) ≤ copt.getD 0.5 ∧ (0.65 : ℚ) ≤ 0.5)),
      if_neg (by norm_num : ¬((0.5 : ℚ) < 0.45))]
  have hsummary : (compose_report copt 0).summary =
      (selectTemplate (copt.getD 0.5) (effectiveQuality 0)).1 := rfl
  have hactions : (compose_report copt 0).actions =
      dictFromKeys ((selectTemplate (copt.getD 0.5) (effectiveQuality 0)).2 ++
        universalActions) := rfl
  refine ⟨?_, ?_, ?_⟩
  · rw [hsummary, hsel]
  · rw [hactions, hsel]
    rfl
  · rw [hsummary, hsel]
    decide

/-- Witness for C10: clarity 0.5 with face quality exactly 0 gets the neutral
branch. -/
theorem compose_zero_quality_neutral_witness :
    (compose_report (some 0.5) 0).summary = neutralSummary ∧
    (compose_report (some 0.5) 0).actions = neutralActions ++ universalActions ∧
    (compose_report (some 0.5) 0).summary ≠ cautionSummary :=
  compose_zero_quality_neutral.2 (some 0.5)
    (by rw [Option.getD_some]; norm_num)

/-- Claim C8, amended: the five trait scores are affine remaps of brightness,
sharpness and quality with no clamping in the formulas themselves; but since
`analyze_image_basic` clamps all three statistics to `[0, 1]`, every trait
score of every reachable statistics record stays within `[0, 1]` — no input
can push one outside. -/
theorem traits_affine_and_bounded :
    (∀ b s q : ℚ, traitsOf b s q =
      [("clarity", pyRound 2 (0.5 + (s - 0.5) * 0.8)),
       ("stability", pyRound 2 (0.5 + (0.5 - |b - 0.5|) * 0.6)),
       ("sociality", pyRound 2 (0.5 + (b - 0.5) * 0.4)),
       ("determination", pyRound 2 (0.5 + (s - 0.5) * 0.5)),
       ("resilience", pyRound 2 (0.5 + (q - 0.5) * 0.6))]) ∧
    ∀ (openImage : List Nat → Except Unit (Nat × Nat × ℚ × ℚ)) (img : List Char)
      (st : Stats), analyze_image_basic openImage img = .ok st →
        ∀ p ∈ traitsOf st.brightness st.sharpness st.quality, 0 ≤ p.2 ∧ p.2 ≤ 1 := by
  refine ⟨fun b s q => rfl, fun openImage img st h => ?_⟩
  obtain ⟨⟨hb0, hb1⟩, ⟨hs0, hs1⟩, hq0, hq1⟩ := analyze_ok_bounds h
  exact traitsOf_bounds hb0 hb1 hs0 hs1 hq0 hq1

/-- Witness for C8: the clarity trait of the sentinel statistics is within
`[0, 1]`. -/
theorem traits_affine_and_bounded_witness :
    0 ≤ (("clarity", pyRound 2 (0.5 + (sentinelStats.sharpness - 0.5) * 0.8)) : String × ℚ).2 ∧
    (("clarity", pyRound 2 (0.5 + (sentinelStats.sharpness - 0.5) * 0.8)) : String × ℚ).2 ≤ 1 :=
  traits_affine_and_bounded.2 (fun _ => .error ()) [] sentinelStats rfl
    ("clarity", pyRound 2 (0.5 + (sentinelStats.sharpness - 0.5) * 0.8))
    (by unfold traitsOf; exact List.mem_cons_self _ _)

/-- Counterexample to C8 as stated: there is no reachable statistics record
whose trait mapping produces a score outside `[0, 1]` — the upstream clamps
make the claimed extreme inputs impossible. -/
theorem no_trait_exceeds_unit_interval :
    ¬ ∃ (openImage : List Nat → Except Unit (Nat × Nat × ℚ × ℚ)) (img : List Char)
      (st : Stats) (p : String × ℚ), analyze_image_basic openImage img = .ok st ∧
        p ∈ traitsOf st.brightness st.sharpness st.quality ∧ (p.2 < 0 ∨ 1 < p.2) := by
  rintro ⟨openImage, img, st, p, hok, hmem, hbad⟩
  obtain ⟨⟨hb0, hb1⟩, ⟨hs0, hs1⟩, hq0, hq1⟩ := analyze_ok_bounds hok
  obtain ⟨h0, h1⟩ := traitsOf_bounds hb0 hb1 hs0 hs1 hq0 hq1 p hmem
  rcases hbad with h | h <;> linarith

end OasisApi
